import Mathlib

/-!
Verification of the tutoring-api backend (Express/TypeScript) against its
natural-language specification.  The development shallowly embeds the code of
`src/routes/auth.ts`, `src/routes/sessions.ts`, `src/utils/jwt.ts` and the
authentication middleware (`authMiddleware` in `src/config.ts`) as executable
Lean functions.  The relational store is modelled as an in-memory list of rows;
the JavaScript primitives the routes rely on (`parseInt`, `Number`, `||`
defaulting, `String.split(" ")`, truthiness) are modelled explicitly.
-/

namespace TutoringApi

/-! ## JavaScript primitives -/

/-- Truthiness test on an optional string field of a JSON body: both `undefined`
(absent) and the empty string are falsy, mirroring `if (!x)` in the routes. -/
def jsFalsy : Option String → Bool
  | none => true
  | some s => s == ""

/-- Numeric value of a list of decimal digit characters. -/
def digitsToNat (cs : List Char) : Nat :=
  cs.foldl (fun acc c => acc * 10 + (c.toNat - 48)) 0

/-- Parse a non-empty leading run of decimal digits; `none` when the list does
not start with a digit (JS `parseInt` then yields `NaN`). -/
def parseLeadingDigits (cs : List Char) : Option Nat :=
  match cs.takeWhile Char.isDigit with
  | [] => none
  | ds => some (digitsToNat ds)

/-- Model of JavaScript `parseInt(s)` restricted to decimal notation, which is
the only form the routes receive: leading whitespace is skipped, an optional
sign is honoured, the longest leading digit run is converted, and `none`
models `NaN` (absent argument or no leading digits). -/
def jsParseInt : Option String → Option Int
  | none => none
  | some s =>
    match s.toList.dropWhile Char.isWhitespace with
    | '-' :: rest => (parseLeadingDigits rest).map (fun n => -(n : Int))
    | '+' :: rest => (parseLeadingDigits rest).map (fun n => (n : Int))
    | rest => (parseLeadingDigits rest).map (fun n => (n : Int))

/-- Model of the JavaScript expression `v || d` on numbers: `NaN` (here `none`)
and `0` are falsy and select the default. -/
def jsOrInt (v : Option Int) (d : Int) : Int :=
  match v with
  | none => d
  | some n => if n = 0 then d else n

/-- Parse a whole list of characters as decimal digits; `none` unless the list
is non-empty and all digits. -/
def parseAllDigits (cs : List Char) : Option Nat :=
  if cs ≠ [] ∧ cs.all Char.isDigit then some (digitsToNat cs) else none

/-- Model of JavaScript `Number(s)` restricted to integer literals (the flows
here only ever carry integer subjects): whitespace is trimmed, the empty
string converts to `0`, a signed run of digits converts to its value, and
`none` models `NaN` (any other string). -/
def jsNumber (s : String) : Option Int :=
  let cs := ((s.toList.dropWhile Char.isWhitespace).reverse.dropWhile
    Char.isWhitespace).reverse
  match cs with
  | [] => some 0
  | '-' :: rest => (parseAllDigits rest).map (fun n => -(n : Int))
  | '+' :: rest => (parseAllDigits rest).map (fun n => (n : Int))
  | rest => (parseAllDigits rest).map (fun n => (n : Int))

/-- Split a character list on every single space, keeping empty segments,
mirroring JavaScript `String.prototype.split(" ")`. -/
def splitOnSpace : List Char → List (List Char)
  | [] => [[]]
  | c :: rest =>
    if c = ' ' then [] :: splitOnSpace rest
    else
      match splitOnSpace rest with
      | [] => [[c]]
      | h :: t => (c :: h) :: t

/-- Model of JavaScript `s.split(" ")`. -/
def jsSplitSpace (s : String) : List String :=
  (splitOnSpace s.toList).map (fun cs => String.mk cs)

/-! ## Data model (`src/types/index.ts`, `src/database.ts` schema) -/

/-- Row of the `users` table. -/
structure UserRow where
  id : Int
  email : String
  password : String
  name : String
  created_at : Nat
deriving DecidableEq, Repr

/-- The `UserResponse` shape of `src/types/index.ts`: the externally returned
user object.  By construction it has no password field. -/
structure UserResponse where
  id : Int
  email : String
  name : String
  created_at : Nat
deriving DecidableEq, Repr

/-- Projection `SELECT id, email, name, created_at` used by every route that
returns a user: the password column is never selected. -/
def toUserResponse (u : UserRow) : UserResponse :=
  ⟨u.id, u.email, u.name, u.created_at⟩

/-- Row of the `tutoring_sessions` table. -/
structure SessionRow where
  id : Int
  user_id : Int
  question : String
  response : String
  created_at : Nat
deriving DecidableEq, Repr

/-! ## Token service (`src/utils/jwt.ts` over the `jsonwebtoken` library)

The wire format of a JWT is abstracted: a token string is either structurally
malformed, or a signed object payload, or a signed plain-string payload; the
`key` component records the secret the token was signed with, and the
signature check succeeds exactly when it matches the verifying secret.  A
JavaScript number is modelled as `Option Int` with `none` playing `NaN`. -/

/-- JavaScript value that can sit in the `sub` claim of a payload: a number
(`none` models `NaN`) or a string. -/
inductive JsVal where
  | num (n : Option Int)
  | str (s : String)
deriving DecidableEq, Repr

/-- Claims object of a JWT payload. -/
structure JwtClaims where
  sub : Option JsVal
  iat : Option Nat
  exp : Option Nat
deriving DecidableEq, Repr

/-- Abstract wire form of a token string. -/
inductive TokenWire where
  | malformed (raw : String)
  | objToken (claims : JwtClaims) (key : String)
  | strToken (payload : String) (key : String)
deriving DecidableEq, Repr

/-- The configured expiry `expiresIn: "7d"` of `src/config.ts`, in seconds. -/
def expiresInSeconds : Nat := 7 * 24 * 60 * 60

/-- `generateToken` of `src/utils/jwt.ts`: signs the payload `sub: userId`
with the configured secret; `jsonwebtoken` adds `iat = now` and
`exp = now + 7 days`. -/
def generateToken (userId : Int) (secret : String) (now : Nat) : TokenWire :=
  .objToken ⟨some (.num (some userId)), some now, some (now + expiresInSeconds)⟩ secret

/-- Errors thrown by `jwt.verify`. -/
inductive JwtError where
  | malformedToken
  | invalidSignature
  | expired
deriving DecidableEq, Repr

/-- Result of a successful `jwt.verify`: an object payload or a string payload. -/
inductive Decoded where
  | obj (claims : JwtClaims)
  | strPayload (s : String)
deriving DecidableEq, Repr

/-- Semantics of `jwt.verify(token, secret)` from the `jsonwebtoken` library:
throws (modelled as `Except.error`) on a malformed token, on a signature
mismatch, and — when an `exp` claim is present — when the clock time is at or
past `exp`. -/
def jwtVerify (w : TokenWire) (secret : String) (now : Nat) : Except JwtError Decoded :=
  match w with
  | .malformed _ => .error .malformedToken
  | .objToken c key =>
    if key ≠ secret then .error .invalidSignature
    else
      match c.exp with
      | some e => if e ≤ now then .error .expired else .ok (.obj c)
      | none => .ok (.obj c)
  | .strToken p key =>
    if key ≠ secret then .error .invalidSignature else .ok (.strPayload p)

/-- The `JWTPayload` returned by `verifyToken`; `sub : Option Int` with `none`
modelling `NaN`. -/
structure JWTPayload where
  sub : Option Int
  iat : Option Nat
  exp : Option Nat
deriving DecidableEq, Repr

/-- The normalization `typeof decoded.sub === 'number' ? decoded.sub :
Number(decoded.sub)` of `src/utils/jwt.ts`. -/
def normalizeSub (v : JsVal) : Option Int :=
  match v with
  | .num n => n
  | .str s => jsNumber s

/-- `verifyToken` of `src/utils/jwt.ts`: wraps `jwt.verify` in a `try/catch`
returning `null` (`none`) on any thrown error, requires the decoded value to
be an object carrying a `sub` property, and normalizes `sub` to a number. -/
def verifyToken (w : TokenWire) (secret : String) (now : Nat) : Option JWTPayload :=
  match jwtVerify w secret now with
  | .error _ => none
  | .ok (.strPayload _) => none
  | .ok (.obj c) =>
    match c.sub with
    | none => none
    | some v => some ⟨normalizeSub v, c.iat, c.exp⟩

/-! ## Authorization gate (`authMiddleware` in `src/config.ts`) -/

/-- Outcome of the authorization gate. -/
inductive AuthOutcome where
  | unauthorized (msg : String)
  | authServerError (msg : String)
  | authorized (u : UserResponse)
deriving DecidableEq, Repr

/-- The lookup `SELECT id, email, name, created_at FROM users WHERE id = $1`. -/
def findUserById (db : List UserRow) (uid : Int) : Option UserRow :=
  db.find? (fun u => u.id == uid)

/-- `authMiddleware`: the token is whatever stands as the second
space-separated segment of the `Authorization` header
(`authHeader.split(" ")[1]`); the scheme segment is never inspected.  The
middleware is parameterized by the token-verification function `vf` (the
code's `verifyToken` applied at the current time with the configured secret)
so the gate's control flow is verified for every verifier.  A payload whose
normalized `sub` is `NaN` reaches the store lookup, which rejects the
non-integer parameter; the `catch` block then answers a 500
"Authentication error". -/
def authMiddleware (db : List UserRow) (vf : String → Option JWTPayload)
    (authHeader : Option String) : AuthOutcome :=
  match authHeader with
  | none => .unauthorized "Missing authorization header"
  | some h =>
    if h = "" then .unauthorized "Missing authorization header"
    else
      match (jsSplitSpace h)[1]? with
      | none => .unauthorized "Invalid authorization header format"
      | some t =>
        if t = "" then .unauthorized "Invalid authorization header format"
        else
          match vf t with
          | none => .unauthorized "Invalid or expired token"
          | some payload =>
            match payload.sub with
            | none => .authServerError "Authentication error"
            | some s =>
              match findUserById db s with
              | none => .unauthorized "User not found"
              | some u => .authorized (toUserResponse u)

/-! ## Session resource (`src/routes/sessions.ts`) -/

/-- Ordering "newest first by `created_at`" used by `ORDER BY created_at DESC`. -/
def newerFirst (a b : SessionRow) : Prop :=
  b.created_at ≤ a.created_at

instance : DecidableRel newerFirst :=
  fun a b => Nat.decLe b.created_at a.created_at

instance : IsTotal SessionRow newerFirst :=
  ⟨fun a b => Nat.le_total b.created_at a.created_at⟩

instance : IsTrans SessionRow newerFirst :=
  ⟨fun _ _ _ hab hbc => Nat.le_trans hbc hab⟩

/-- The rows of `tutoring_sessions` owned by `uid` (`WHERE user_id = $1`); the
count query `SELECT COUNT(*) ... WHERE user_id = $1` is its length. -/
def sessionsOwned (db : List SessionRow) (uid : Int) : List SessionRow :=
  db.filter (fun s => s.user_id == uid)

/-- `ORDER BY created_at DESC` (ties in arbitrary but fixed order). -/
def orderByCreatedDesc (l : List SessionRow) : List SessionRow :=
  l.insertionSort newerFirst

/-- Semantics of the paginated select
`SELECT ... WHERE user_id = $1 ORDER BY created_at DESC LIMIT $2 OFFSET $3`:
PostgreSQL rejects a negative `LIMIT` or `OFFSET` with an error (caught by the
route's `catch` as a 500); otherwise the owned rows are sorted newest first,
`offset` rows are skipped and at most `limit` rows returned. -/
def sqlSelectSessions (db : List SessionRow) (uid : Int) (limit offset : Int) :
    Except String (List SessionRow) :=
  if limit < 0 then .error "LIMIT must not be negative"
  else if offset < 0 then .error "OFFSET must not be negative"
  else .ok (((orderByCreatedDesc (sessionsOwned db uid)).drop offset.toNat).take
    limit.toNat)

/-- Pagination metadata of the list response. -/
structure Pagination where
  limit : Int
  offset : Int
  total : Int
  hasMore : Bool
deriving DecidableEq, Repr

/-- The applied limit `Math.min(parseInt(req.query.limit) || 10, 100)`. -/
def appliedLimit (limitParam : Option String) : Int :=
  min (jsOrInt (jsParseInt limitParam) 10) 100

/-- The applied offset `parseInt(req.query.offset) || 0`. -/
def appliedOffset (offsetParam : Option String) : Int :=
  jsOrInt (jsParseInt offsetParam) 0

/-- Outcome of `GET /sessions` after the gate. -/
inductive ListOutcome where
  | ok (sessions : List SessionRow) (pagination : Pagination)
  | serverError (msg : String)
deriving DecidableEq, Repr

/-- Handler of `GET /sessions` (authenticated part): computes the applied limit
and offset, runs the paginated select, counts the owned rows, and answers the
sessions plus pagination metadata with `hasMore = offset + limit < total`. -/
def listSessions (db : List SessionRow) (uid : Int)
    (limitParam offsetParam : Option String) : ListOutcome :=
  let limit := appliedLimit limitParam
  let offset := appliedOffset offsetParam
  match sqlSelectSessions db uid limit offset with
  | .error e => .serverError e
  | .ok sessions =>
    let total : Int := (sessionsOwned db uid).length
    .ok sessions ⟨limit, offset, total, decide (offset + limit < total)⟩

/-- Sessions component of a list outcome. -/
def listOutcomeSessions : ListOutcome → Option (List SessionRow)
  | .ok ss _ => some ss
  | .serverError _ => none

/-- Pagination component of a list outcome. -/
def listOutcomePagination : ListOutcome → Option Pagination
  | .ok _ pg => some pg
  | .serverError _ => none

/-- Outcome of `GET /sessions/:id` after the gate. -/
inductive GetSessionOutcome where
  | ok (s : SessionRow)
  | notFound (msg : String)
deriving DecidableEq, Repr

/-- Handler of `GET /sessions/:id` (authenticated part): the select
`WHERE id = $1 AND user_id = $2` either yields a row, answered as 200, or no
row, answered as the one 404 response — the same value whether the id does not
exist at all or belongs to a different user. -/
def getSessionById (db : List SessionRow) (uid : Int) (sid : Int) :
    GetSessionOutcome :=
  match db.filter (fun s => s.id == sid && s.user_id == uid) with
  | [] => .notFound "Session not found"
  | r :: _ => .ok r

/-- Result of the generation collaborator call in `POST /sessions`: the OpenAI
client either returns text (`response.choices[0].message.content || ""`),
fails with a 401 status, or fails otherwise. -/
inductive GenResult where
  | ok (text : String)
  | authFailure
  | failure (msg : String)
deriving DecidableEq, Repr

/-- The mock answer used when no OpenAI client is configured. -/
def mockResponse (q : String) : String :=
  "This is a simulated AI response to: \"" ++ q ++ "\"\n\n" ++
  "To enable real AI responses:\n" ++
  "1. Get an API key from https://platform.openai.com/api-keys\n" ++
  "2. Add it to your .env file: OPENAI_API_KEY=sk-your-key\n" ++
  "3. Restart the server\n\n" ++
  "For now, this app will work with mock responses so you can test all other features!"

/-- The message of the `Error` the route throws when the OpenAI call reports a
401 status; the outer `catch` answers it as a 500 (the wrapped `Error` carries
no `status` field, so the outer `error.status === 401` test is false and the
message is surfaced via `error.message`). -/
def openaiKeyInvalidMessage : String :=
  "OpenAI API key is invalid. Please set a valid OPENAI_API_KEY in your .env file."

/-- Outcome of `POST /sessions` after the gate. -/
inductive CreateOutcome where
  | created (msg : String) (s : SessionRow)
  | badRequest (msg : String)
  | serverError (msg : String)
deriving DecidableEq, Repr

/-- Handler of `POST /sessions` (authenticated part).  `gen = none` models the
absent OpenAI client (mock response); `gen = some r` models the configured
client's call result.  A falsy `question` is rejected before anything else;
the row is inserted only in the branch where a generation response was
obtained, with `user_id` set to the authenticated user's id. -/
def createSession (db : List SessionRow) (nextId : Int) (now : Nat) (uid : Int)
    (question : Option String) (gen : Option GenResult) :
    CreateOutcome × List SessionRow :=
  if jsFalsy question then (.badRequest "Question is required", db)
  else
    let q := question.getD ""
    let tutorResponse : Except String String :=
      match gen with
      | none => .ok (mockResponse q)
      | some (.ok text) => .ok text
      | some .authFailure => .error openaiKeyInvalidMessage
      | some (.failure m) => .error m
    match tutorResponse with
    | .error m => (.serverError m, db)
    | .ok resp =>
      let row : SessionRow := ⟨nextId, uid, q, resp, now⟩
      (.created "Session created successfully" row, db ++ [row])

/-! ## Registration (`src/routes/auth.ts`) -/

/-- Outcome of `POST /auth/register`. -/
inductive RegisterOutcome where
  | registered (msg : String) (user : UserResponse)
  | badRequest (msg : String)
  | serverError (msg : String)
deriving DecidableEq, Repr

/-- The raw PostgreSQL message of a violated `users.email` unique constraint. -/
def uniqueViolationMessage : String :=
  "duplicate key value violates unique constraint \"users_email_key\""

/-- The pre-existence check `SELECT id FROM users WHERE email = $1` followed by
`rows.length > 0`. -/
def registerCheck (db : List UserRow) (email : String) : Bool :=
  db.any (fun u => u.email == email)

/-- Semantics of `INSERT INTO users ... RETURNING id, email, name, created_at`:
the store's unique constraint on `email` is the authoritative arbiter and
raises its raw error when a row with the same email already exists. -/
def sqlInsertUser (db : List UserRow) (nextId : Int) (now : Nat)
    (email hashed name : String) : Except String (UserRow × List UserRow) :=
  if db.any (fun u => u.email == email) then .error uniqueViolationMessage
  else
    let row : UserRow := ⟨nextId, email, hashed, name, now⟩
    .ok (row, db ++ [row])

/-- Continuation of the register handler after its pre-existence check, taking
the check's result and the store state at insert time as inputs so that
interleavings of two concurrent registrations can be expressed: a positive
check answers the 400 conflict; otherwise the insert runs, and an insert-time
unique violation falls into the generic `catch`, which answers a 500 carrying
the raw `error.message`. -/
def registerResume (checkFoundExisting : Bool) (db : List UserRow) (nextId : Int)
    (now : Nat) (email hashed name : String) : RegisterOutcome × List UserRow :=
  if checkFoundExisting then (.badRequest "User already exists", db)
  else
    match sqlInsertUser db nextId now email hashed name with
    | .error m => (.serverError m, db)
    | .ok (row, db2) =>
      (.registered "User registered successfully" (toUserResponse row), db2)

/-- Handler of `POST /auth/register`, parameterized by the password hashing
collaborator `hashFn` (the code's `hashPassword`, a salted bcrypt with cost 10
from `src/utils/jwt.ts`): validates the fields, checks and inserts, and stores
`hashFn password` as the credential. -/
def register (db : List UserRow) (nextId : Int) (now : Nat)
    (hashFn : String → String) (email password name : Option String) :
    RegisterOutcome × List UserRow :=
  if jsFalsy email || jsFalsy password || jsFalsy name then
    (.badRequest "Missing required fields", db)
  else
    let e := email.getD ""
    let p := password.getD ""
    let nm := name.getD ""
    if p.length < 8 then (.badRequest "Password must be at least 8 characters", db)
    else registerResume (registerCheck db e) db nextId now e (hashFn p) nm

/-! ## Theorems -/

/-- Under distinct session ids, the route's filter keeps exactly the matching
owned row. -/
theorem filter_id_owner_eq_single (uid sid : Int) (s : SessionRow) :
    ∀ l : List SessionRow, l.Pairwise (fun a b => a.id ≠ b.id) → s ∈ l →
      s.id = sid → s.user_id = uid →
      l.filter (fun t => t.id == sid && t.user_id == uid) = [s] := by
  intro l
  induction l with
  | nil => intro _ hm; cases hm
  | cons a rest ih =>
    intro hp hm h1 h2
    rcases List.pairwise_cons.mp hp with ⟨ha, hrest⟩
    rcases List.mem_cons.mp hm with rfl | hm
    · have hnil : rest.filter (fun t => t.id == sid && t.user_id == uid) = [] := by
        refine List.filter_eq_nil_iff.mpr (fun t ht => ?_)
        have hne : s.id ≠ t.id := ha t ht
        simp only [Bool.and_eq_true, beq_iff_eq, not_and]
        intro hts
        exact absurd (h1 ▸ hts.symm) hne
      rw [List.filter_cons_of_pos (by simp [h1, h2]), hnil]
    · have hne : a.id ≠ s.id := ha s hm
      have hpa : (a.id == sid && a.user_id == uid) = false := by
        simp only [Bool.and_eq_false_iff, beq_eq_false_iff_ne, ne_eq]
        exact Or.inl (fun hasid => hne (hasid.trans h1.symm))
      rw [List.filter_cons_of_neg (by simp [hpa])]
      exact ih hrest hm h1 h2

/-- C1: for every authenticated identity and session id, `GET /sessions/:id`
returns the session exactly when a session with that id exists and is owned by
the identity; in every other case — id absent, or id owned by a different
user — the result is the single constant not-found response
`notFound "Session not found"`, so the two failure cases are literally
indistinguishable to the caller. -/
theorem C1_getById_owner_isolation (db : List SessionRow) (uid sid : Int)
    (hids : db.Pairwise (fun a b => a.id ≠ b.id)) :
    (∀ s : SessionRow, s ∈ db → s.id = sid → s.user_id = uid →
      getSessionById db uid sid = .ok s) ∧
    ((¬ ∃ s ∈ db, s.id = sid ∧ s.user_id = uid) →
      getSessionById db uid sid = .notFound "Session not found") := by
  constructor
  · intro s hm h1 h2
    unfold getSessionById
    rw [filter_id_owner_eq_single uid sid s db hids hm h1 h2]
  · intro hno
    unfold getSessionById
    have hnil : db.filter (fun t => t.id == sid && t.user_id == uid) = [] := by
      refine List.filter_eq_nil_iff.mpr (fun t ht => ?_)
      simp only [Bool.and_eq_true, beq_iff_eq, not_and]
      intro hid huid
      exact hno ⟨t, ht, hid, huid⟩
    rw [hnil]

/-- Witness for C1 at a concrete store: the owner retrieves the session, a
different identity gets the not-found response. -/
theorem C1_witness :
    getSessionById [⟨1, 5, "q", "r", 0⟩] 5 1 = .ok ⟨1, 5, "q", "r", 0⟩ ∧
    getSessionById [⟨1, 5, "q", "r", 0⟩] 6 1 = .notFound "Session not found" := by
  constructor
  · exact (C1_getById_owner_isolation [⟨1, 5, "q", "r", 0⟩] 5 1
      (List.pairwise_singleton _ _)).1 ⟨1, 5, "q", "r", 0⟩ (by simp) rfl rfl
  · refine (C1_getById_owner_isolation [⟨1, 5, "q", "r", 0⟩] 6 1
      (List.pairwise_singleton _ _)).2 ?_
    rintro ⟨s, hs, _, h2⟩
    rw [List.mem_singleton.mp hs] at h2
    exact absurd h2 (by decide)

/-- C3: a token issued for subject `S` at time `now` verifies to subject `S`
(with `iat = now` and `exp` fixed at seven days after issuance) at every time
strictly before the encoded expiry, and verification fails (returns invalid)
at every time at or after the expiry. -/
theorem C3_issue_verify_roundtrip (S : Int) (secret : String) (now t : Nat) :
    (t < now + expiresInSeconds →
      verifyToken (generateToken S secret now) secret t =
        some ⟨some S, some now, some (now + expiresInSeconds)⟩) ∧
    (now + expiresInSeconds ≤ t →
      verifyToken (generateToken S secret now) secret t = none) := by
  constructor
  · intro h
    have hnle : ¬ (now + expiresInSeconds ≤ t) := by omega
    simp [verifyToken, generateToken, jwtVerify, normalizeSub, hnle]
  · intro h
    simp [verifyToken, generateToken, jwtVerify, h]

/-- Witness for C3: a token issued at time 0 verifies to its subject at
time 100 and is invalid exactly at the seven-day boundary. -/
theorem C3_witness :
    verifyToken (generateToken 1 "k" 0) "k" 100 =
      some ⟨some 1, some 0, some (0 + expiresInSeconds)⟩ ∧
    verifyToken (generateToken 1 "k" 0) "k" (0 + expiresInSeconds) = none :=
  ⟨(C3_issue_verify_roundtrip 1 "k" 0 100).1 (by decide),
   (C3_issue_verify_roundtrip 1 "k" 0 (0 + expiresInSeconds)).2 (Nat.le_refl _)⟩

/-- C4 (amended): `verifyToken` never throws — every error thrown by
`jwt.verify` (structural malformation, signature mismatch, clock at or past
the encoded expiry) is caught and mapped to the invalid result `none`; and on
every success the returned subject is the normalization
`typeof sub === 'number' ? sub : Number(sub)` of the signed payload's `sub`
claim, which is an integer whenever that claim is a number or a numeric
string — but a non-numeric string subject normalizes to `NaN` and is still
returned as a success, so the subject is not an integer in every success. -/
theorem C4_verify_total_normalized (w : TokenWire) (secret : String) (now : Nat) :
    (∀ e, jwtVerify w secret now = .error e → verifyToken w secret now = none) ∧
    (∀ raw, w = .malformed raw → verifyToken w secret now = none) ∧
    (∀ c key, w = .objToken c key → key ≠ secret → verifyToken w secret now = none) ∧
    (∀ c key e, w = .objToken c key → c.exp = some e → e ≤ now →
      verifyToken w secret now = none) ∧
    (∀ p, verifyToken w secret now = some p →
      ∃ c v, w = .objToken c secret ∧ c.sub = some v ∧ p.sub = normalizeSub v ∧
        (∀ n, v = .num (some n) → p.sub = some n) ∧
        (∀ str n, v = .str str → jsNumber str = some n → p.sub = some n)) := by
  refine ⟨?_, ?_, ?_, ?_, ?_⟩
  · intro e he
    simp [verifyToken, he]
  · rintro raw rfl
    simp [verifyToken, jwtVerify]
  · rintro c key rfl hk
    simp [verifyToken, jwtVerify, hk]
  · rintro c key e rfl he hle
    by_cases hk : key = secret
    · subst hk
      simp [verifyToken, jwtVerify, he, hle]
    · simp [verifyToken, jwtVerify, hk]
  · intro p hp
    cases w with
    | malformed raw => simp [verifyToken, jwtVerify] at hp
    | strToken pl key =>
      by_cases hk : key = secret
      · subst hk; simp [verifyToken, jwtVerify] at hp
      · simp [verifyToken, jwtVerify, hk] at hp
    | objToken c key =>
      by_cases hk : key = secret
      · subst hk
        have hok : ∀ hsub : c.sub = none, False := by
          intro hsub
          cases hexp : c.exp with
          | none => simp [verifyToken, jwtVerify, hexp, hsub] at hp
          | some e =>
            by_cases hle : e ≤ now
            · simp [verifyToken, jwtVerify, hexp, hle] at hp
            · simp [verifyToken, jwtVerify, hexp, hle, hsub] at hp
        cases hsub : c.sub with
        | none => exact absurd hsub (fun h => hok h)
        | some v =>
          have hpv : p = ⟨normalizeSub v, c.iat, c.exp⟩ := by
            cases hexp : c.exp with
            | none =>
              simp [verifyToken, jwtVerify, hexp, hsub] at hp
              exact hp.symm
            | some e =>
              by_cases hle : e ≤ now
              · simp [verifyToken, jwtVerify, hexp, hle] at hp
              · simp [verifyToken, jwtVerify, hexp, hle, hsub] at hp
                exact hp.symm
          refine ⟨c, v, rfl, hsub, by rw [hpv], ?_, ?_⟩
          · rintro n rfl
            rw [hpv]
            simp [normalizeSub]
          · rintro str n rfl hjs
            rw [hpv]
            simp [normalizeSub, hjs]
      · simp [verifyToken, jwtVerify, hk] at hp

/-- Counterexample for C4 as stated: a token signed with the correct secret
whose payload carries the non-numeric string subject `"abc"` verifies
successfully, yet the returned subject is `Number("abc") = NaN` (modelled as
`none`) — a success whose subject id is not an integer. -/
theorem C4_counterexample :
    verifyToken (.objToken ⟨some (.str "abc"), none, none⟩ "k") "k" 0 =
      some ⟨none, none, none⟩ ∧
    (JWTPayload.sub ⟨none, none, none⟩).isSome = false := by
  exact ⟨rfl, rfl⟩

/-- Witness for C4: a structurally malformed token string verifies to the
invalid result rather than throwing. -/
theorem C4_witness : verifyToken (.malformed "x") "k" 0 = none :=
  (C4_verify_total_normalized (.malformed "x") "k" 0).2.1 "x" rfl

/-- C2 (amended): the gate's contract, verified for every verifier `vf` and
store `db`.  A missing (or empty, hence falsy) header is rejected with
"missing authorization"; the token is the second space-separated segment of
the header — the scheme segment is never compared against `Bearer`, so the
outcome depends on the header only through that second segment; an absent or
empty second segment is rejected with "invalid header format"; a token that
fails verification is rejected as invalid/expired; and a verified token whose
subject matches no user record is rejected with "user not found" (token
validity necessary but not sufficient). -/
theorem C2_auth_gate_contract (db : List UserRow)
    (vf : String → Option JWTPayload) :
    (authMiddleware db vf none = .unauthorized "Missing authorization header") ∧
    (authMiddleware db vf (some "") =
      .unauthorized "Missing authorization header") ∧
    (∀ h : String, h ≠ "" →
      ((jsSplitSpace h)[1]? = none ∨ (jsSplitSpace h)[1]? = some "") →
      authMiddleware db vf (some h) =
        .unauthorized "Invalid authorization header format") ∧
    (∀ h t, h ≠ "" → (jsSplitSpace h)[1]? = some t → t ≠ "" → vf t = none →
      authMiddleware db vf (some h) = .unauthorized "Invalid or expired token") ∧
    (∀ h t p s, h ≠ "" → (jsSplitSpace h)[1]? = some t → t ≠ "" →
      vf t = some p → p.sub = some s → findUserById db s = none →
      authMiddleware db vf (some h) = .unauthorized "User not found") ∧
    (∀ h₁ h₂, h₁ ≠ "" → h₂ ≠ "" →
      (jsSplitSpace h₁)[1]? = (jsSplitSpace h₂)[1]? →
      authMiddleware db vf (some h₁) = authMiddleware db vf (some h₂)) := by
  refine ⟨rfl, rfl, ?_, ?_, ?_, ?_⟩
  · intro h hne hseg
    rcases hseg with hseg | hseg <;> simp [authMiddleware, hne, hseg]
  · intro h t hne hseg ht hvf
    simp [authMiddleware, hne, hseg, ht, hvf]
  · intro h t p s hne hseg ht hvf hsub hfind
    simp [authMiddleware, hne, hseg, ht, hvf, hsub, hfind]
  · intro h₁ h₂ hne₁ hne₂ hseg
    simp only [authMiddleware, hne₁, hne₂, if_neg, ← hseg]

/-- Counterexample for C2 as stated: the header `"Basic tok123"` does not have
the scheme `Bearer`, yet the gate does not reject it at the header-format
step — the second segment `tok123` is handed to the verifier, verifies, and
the request is authorized.  The claim's "rejected at this step without the
token being verified" is therefore false at this input. -/
theorem C2_counterexample :
    authMiddleware [⟨7, "a@x.com", "hash", "Alice", 0⟩]
      (fun s => if s = "tok123" then some ⟨some 7, none, none⟩ else none)
      (some "Basic tok123") = .authorized ⟨7, "a@x.com", "Alice", 0⟩ := by
  decide

/-- Witness for C2 at concrete inputs: a header without a token segment is
rejected with the format message, and a valid token whose subject matches no
user is rejected with "user not found". -/
theorem C2_witness :
    authMiddleware ([] : List UserRow) (fun _ => none) (some "Bearer") =
      .unauthorized "Invalid authorization header format" ∧
    authMiddleware ([] : List UserRow)
      (fun _ => some ⟨some 7, none, none⟩) (some "Bearer tok") =
      .unauthorized "User not found" := by
  constructor
  · exact (C2_auth_gate_contract [] (fun _ => none)).2.2.1 "Bearer"
      (by decide) (Or.inl (by decide))
  · exact (C2_auth_gate_contract [] (fun _ => some ⟨some 7, none, none⟩)
      ).2.2.2.2.1 "Bearer tok" "tok" ⟨some 7, none, none⟩ 7
      (by decide) (by decide) (by decide) rfl rfl rfl

/-- C5 (amended): for two otherwise-valid registration attempts with the same
email, the sequential composition yields exactly one success and one 400
conflict "User already exists", regardless of which attempt runs first — the
pre-existence check catches the duplicate.  But when the store itself reports
the uniqueness violation at insert time (both pre-checks having passed before
either insert, the benign race), the violation falls into the route's generic
`catch` and is surfaced as a 500 carrying the raw constraint message — it is
not translated into the ConflictError response. -/
theorem C5_duplicate_registration (db : List UserRow) (n1 n2 : Int) (t1 t2 : Nat)
    (hashFn : String → String) (email pw1 pw2 name1 name2 : String)
    (hemail : email ≠ "") (hpw1 : ¬ pw1.length < 8) (hname1 : name1 ≠ "")
    (hpw2 : ¬ pw2.length < 8) (hname2 : name2 ≠ "")
    (hfree : ∀ u ∈ db, u.email ≠ email) :
    (register db n1 t1 hashFn (some email) (some pw1) (some name1) =
      (.registered "User registered successfully" ⟨n1, email, name1, t1⟩,
        db ++ [⟨n1, email, hashFn pw1, name1, t1⟩])) ∧
    (∀ db2 : List UserRow, (∃ u ∈ db2, u.email = email) →
      register db2 n2 t2 hashFn (some email) (some pw2) (some name2) =
        (.badRequest "User already exists", db2)) ∧
    (∀ db2 : List UserRow, (∃ u ∈ db2, u.email = email) →
      registerResume false db2 n2 t2 email (hashFn pw2) name2 =
        (.serverError uniqueViolationMessage, db2)) := by
  have hpw1ne : ¬ pw1 = "" := fun h => hpw1 (by simp [h])
  have hpw2ne : ¬ pw2 = "" := fun h => hpw2 (by simp [h])
  refine ⟨?_, ?_, ?_⟩
  · have hany : db.any (fun u => u.email == email) = false := by
      simp only [List.any_eq_false]
      intro u hu
      simpa using hfree u hu
    simp [register, jsFalsy, hemail, hname1, hpw1, hpw1ne, registerResume,
      registerCheck, hany, sqlInsertUser, toUserResponse]
  · intro db2 hdup
    have hany : db2.any (fun u => u.email == email) = true := by
      rcases hdup with ⟨u, hu, he⟩
      exact List.any_eq_true.mpr ⟨u, hu, by simp [he]⟩
    simp [register, jsFalsy, hemail, hname2, hpw2, hpw2ne, registerResume,
      registerCheck, hany]
  · intro db2 hdup
    have hany : db2.any (fun u => u.email == email) = true := by
      rcases hdup with ⟨u, hu, he⟩
      exact List.any_eq_true.mpr ⟨u, hu, by simp [he]⟩
    simp [registerResume, sqlInsertUser, hany]

/-- Counterexample for C5 as stated: in the interleaving where both
registrations for `a@x.com` pass the pre-existence check on the empty store
before either insert runs, the loser's insert raises the store's uniqueness
violation, which the route's generic `catch` surfaces as a 500 with the raw
constraint message — not the ConflictError "User already exists" the claim
requires for every ordering. -/
theorem C5_counterexample :
    registerCheck [] "a@x.com" = false ∧
    registerResume false [] 1 0 "a@x.com" "h1" "A" =
      (.registered "User registered successfully" ⟨1, "a@x.com", "A", 0⟩,
        [⟨1, "a@x.com", "h1", "A", 0⟩]) ∧
    registerResume false [⟨1, "a@x.com", "h1", "A", 0⟩] 2 0 "a@x.com" "h2" "B" =
      (.serverError uniqueViolationMessage, [⟨1, "a@x.com", "h1", "A", 0⟩]) ∧
    RegisterOutcome.serverError uniqueViolationMessage ≠
      RegisterOutcome.badRequest "User already exists" := by
  refine ⟨rfl, rfl, rfl, ?_⟩
  intro h
  cases h

/-- Witness for C5 at concrete inputs: sequentially, the first registration of
`a@x.com` succeeds and the second answers the 400 conflict. -/
theorem C5_witness :
    register [] 1 0 (fun _ => "hv") (some "a@x.com") (some "password1")
      (some "A") =
      (.registered "User registered successfully" ⟨1, "a@x.com", "A", 0⟩,
        [⟨1, "a@x.com", "hv", "A", 0⟩]) ∧
    register [⟨1, "a@x.com", "hv", "A", 0⟩] 2 0 (fun _ => "hv")
      (some "a@x.com") (some "password2") (some "B") =
      (.badRequest "User already exists", [⟨1, "a@x.com", "hv", "A", 0⟩]) := by
  have h := C5_duplicate_registration [] 1 2 0 0 (fun _ => "hv") "a@x.com"
    "password1" "password2" "A" "B" (by decide) (by decide) (by decide)
    (by decide) (by decide) (by intro u hu; cases hu)
  exact ⟨h.1, h.2.1 [⟨1, "a@x.com", "hv", "A", 0⟩] ⟨⟨1, "a@x.com", "hv", "A", 0⟩,
    by simp, rfl⟩⟩

/-- C6: `POST /sessions` rejects a falsy (absent or empty) question as a 400
"question is required" with the store untouched; every failure of the
generation collaborator likewise leaves the store untouched; and on every
success exactly one session row is appended, owned by the authenticated
identity, whose `response` is exactly the text obtained from the generation
collaborator (the configured client's answer, or the mock answer when no
client is configured) — so no session is ever stored without a generation
response having been obtained first. -/
theorem C6_create_session (db : List SessionRow) (nextId : Int) (now : Nat)
    (uid : Int) (question : Option String) (gen : Option GenResult) :
    (jsFalsy question = true →
      createSession db nextId now uid question gen =
        (.badRequest "Question is required", db)) ∧
    (∀ m, (createSession db nextId now uid question gen).1 = .serverError m →
      (createSession db nextId now uid question gen).2 = db) ∧
    (∀ msg srow, (createSession db nextId now uid question gen).1 =
        .created msg srow →
      (createSession db nextId now uid question gen).2 = db ++ [srow] ∧
      srow.user_id = uid ∧
      ((gen = none ∧ srow.response = mockResponse (question.getD "")) ∨
        (∃ text, gen = some (.ok text) ∧ srow.response = text))) := by
  refine ⟨?_, ?_, ?_⟩
  · intro hq
    simp [createSession, hq]
  · intro m hm
    by_cases hq : jsFalsy question = true
    · simp [createSession, hq]
    · cases gen with
      | none => simp [createSession, hq] at hm
      | some g =>
        cases g with
        | ok text => simp [createSession, hq] at hm
        | authFailure => simp [createSession, hq]
        | failure msg => simp [createSession, hq]
  · intro msg srow hc
    by_cases hq : jsFalsy question = true
    · simp [createSession, hq] at hc
    · cases gen with
      | none =>
        simp [createSession, hq] at hc
        refine ⟨by simp [createSession, hq, hc.2], by rw [← hc.2], ?_⟩
        exact Or.inl ⟨rfl, by rw [← hc.2]⟩
      | some g =>
        cases g with
        | ok text =>
          simp [createSession, hq] at hc
          refine ⟨by simp [createSession, hq, hc.2], by rw [← hc.2], ?_⟩
          exact Or.inr ⟨text, rfl, by rw [← hc.2]⟩
        | authFailure => simp [createSession, hq] at hc
        | failure m => simp [createSession, hq] at hc

/-- Witness for C6 at concrete inputs: an empty question is rejected with no
row persisted, and a successful mock generation appends exactly one owned
row. -/
theorem C6_witness :
    createSession [] 1 0 5 (some "") none =
      (.badRequest "Question is required", []) ∧
    (createSession [] 1 0 5 (some "hi") none).2 =
      [] ++ [⟨1, 5, "hi", mockResponse "hi", 0⟩] := by
  constructor
  · exact (C6_create_session [] 1 0 5 (some "") none).1 rfl
  · exact ((C6_create_session [] 1 0 5 (some "hi") none).2.2
      "Session created successfully" ⟨1, 5, "hi", mockResponse "hi", 0⟩ rfl).1

/-- C7: the applied limit is the default 10 when the limit parameter is absent
or non-numeric and is never above 100; the applied offset defaults to 0 when
absent or non-numeric; every returned pagination object consists exactly of
the applied limit, the applied offset, the caller's owned-session count, and
`hasMore = offset + limit < total`; and on a store of 25 owned sessions,
`limit=10&offset=20` returns 5 sessions with `hasMore = false` while
`limit=10&offset=0` returns 10 sessions with `hasMore = true`. -/
theorem C7_pagination (db : List SessionRow) (uid : Int) (lp op : Option String) :
    (jsParseInt lp = none → appliedLimit lp = 10) ∧
    appliedLimit lp ≤ 100 ∧
    (jsParseInt op = none → appliedOffset op = 0) ∧
    (∀ ss pg, listSessions db uid lp op = .ok ss pg →
      pg = ⟨appliedLimit lp, appliedOffset op,
        ((sessionsOwned db uid).length : Int),
        decide (appliedOffset op + appliedLimit lp <
          ((sessionsOwned db uid).length : Int))⟩) ∧
    ((listOutcomeSessions (listSessions ((List.range 25).map
        (fun i => ⟨Int.ofNat i, 1, "q", "r", i⟩)) 1 (some "10")
        (some "20"))).map List.length = some 5 ∧
      (listOutcomePagination (listSessions ((List.range 25).map
        (fun i => ⟨Int.ofNat i, 1, "q", "r", i⟩)) 1 (some "10")
        (some "20"))).map Pagination.hasMore = some false) ∧
    ((listOutcomeSessions (listSessions ((List.range 25).map
        (fun i => ⟨Int.ofNat i, 1, "q", "r", i⟩)) 1 (some "10")
        (some "0"))).map List.length = some 10 ∧
      (listOutcomePagination (listSessions ((List.range 25).map
        (fun i => ⟨Int.ofNat i, 1, "q", "r", i⟩)) 1 (some "10")
        (some "0"))).map Pagination.hasMore = some true) := by
  refine ⟨?_, ?_, ?_, ?_, by decide, by decide⟩
  · intro h
    simp [appliedLimit, jsOrInt, h]
  · exact min_le_right _ _
  · intro h
    simp [appliedOffset, jsOrInt, h]
  · intro ss pg h
    cases hsel : sqlSelectSessions db uid (appliedLimit lp) (appliedOffset op) with
    | error e =>
      simp only [listSessions, hsel] at h
      exact absurd h (by simp)
    | ok sessions =>
      simp only [listSessions, hsel] at h
      exact ((ListOutcome.ok.injEq _ _ _ _).mp h.symm).2

/-- Witness for C7 at concrete parameters: a non-numeric limit falls back to
the default 10 and a non-numeric offset to 0. -/
theorem C7_witness :
    appliedLimit (some "abc") = 10 ∧ appliedOffset (some "xyz") = 0 :=
  ⟨(C7_pagination [] 0 (some "abc") (some "xyz")).1 rfl,
   (C7_pagination [] 0 (some "abc") (some "xyz")).2.2.1 rfl⟩

/-- C8: every session returned by the list operation is owned by the
authenticated identity — never another user's — and the returned list is
ordered newest first by `created_at`. -/
theorem C8_list_owned_sorted (db : List SessionRow) (uid : Int)
    (lp op : Option String) (ss : List SessionRow) (pg : Pagination)
    (h : listSessions db uid lp op = .ok ss pg) :
    (∀ s ∈ ss, s.user_id = uid) ∧ List.Sorted newerFirst ss := by
  have hss : ss = ((orderByCreatedDesc (sessionsOwned db uid)).drop
      (appliedOffset op).toNat).take (appliedLimit lp).toNat := by
    cases hsel : sqlSelectSessions db uid (appliedLimit lp) (appliedOffset op) with
    | error e =>
      simp only [listSessions, hsel] at h
      exact absurd h (by simp)
    | ok sessions =>
      simp only [listSessions, hsel] at h
      have hsess : sessions = ss := ((ListOutcome.ok.injEq _ _ _ _).mp h).1
      unfold sqlSelectSessions at hsel
      split at hsel
      · exact absurd hsel (by simp)
      · split at hsel
        · exact absurd hsel (by simp)
        · rw [← hsess]
          exact (Except.ok.inj hsel).symm
  constructor
  · intro s hs
    rw [hss] at hs
    have hs2 : s ∈ orderByCreatedDesc (sessionsOwned db uid) :=
      List.drop_subset _ _ (List.take_subset _ _ hs)
    have hs3 : s ∈ sessionsOwned db uid := by
      simpa [orderByCreatedDesc] using hs2
    have hkeep := List.of_mem_filter hs3
    simpa using hkeep
  · rw [hss]
    have hsorted : List.Sorted newerFirst
        (orderByCreatedDesc (sessionsOwned db uid)) :=
      List.sorted_insertionSort newerFirst _
    exact hsorted.sublist ((List.take_sublist _ _).trans (List.drop_sublist _ _))

/-- Witness for C8 at a concrete store: the single owned session comes back,
owned and trivially sorted. -/
theorem C8_witness :
    List.Sorted newerFirst [(⟨1, 5, "q", "r", 0⟩ : SessionRow)] :=
  (C8_list_owned_sorted [⟨1, 5, "q", "r", 0⟩] 5 none none
    [⟨1, 5, "q", "r", 0⟩] ⟨10, 0, 1, false⟩ (by decide)).2

/-- C9: on every valid registration the credential stored in the user row is
exactly the output of the password-hashing collaborator on the plaintext (the
salted bcrypt `hashPassword` of `src/utils/jwt.ts`), which under the
collaborator's one-way contract differs from the plaintext; and the returned
user object is the projection onto id, email, name and creation time — it
carries no password field and is unchanged under any change of the stored
hash. -/
theorem C9_password_hash_isolation (db : List UserRow) (nextId : Int)
    (now : Nat) (hashFn : String → String) (email pw name : String)
    (hemail : email ≠ "") (hname : name ≠ "") (hpw : ¬ pw.length < 8)
    (hfree : registerCheck db email = false) (hone : hashFn pw ≠ pw) :
    register db nextId now hashFn (some email) (some pw) (some name) =
      (.registered "User registered successfully" ⟨nextId, email, name, now⟩,
        db ++ [⟨nextId, email, hashFn pw, name, now⟩]) ∧
    (⟨nextId, email, hashFn pw, name, now⟩ : UserRow).password = hashFn pw ∧
    (⟨nextId, email, hashFn pw, name, now⟩ : UserRow).password ≠ pw ∧
    (∀ h1 h2 : String, toUserResponse ⟨nextId, email, h1, name, now⟩ =
      toUserResponse ⟨nextId, email, h2, name, now⟩) := by
  have hpwne : ¬ pw = "" := fun h => hpw (by simp [h])
  refine ⟨?_, rfl, hone, fun h1 h2 => rfl⟩
  have hany : db.any (fun u => u.email == email) = false := hfree
  simp [register, jsFalsy, hemail, hname, hpw, hpwne, registerResume,
    registerCheck, hany, sqlInsertUser, toUserResponse]

/-- Witness for C9 at concrete inputs: the stored credential is the hash
value, not the plaintext. -/
theorem C9_witness :
    register [] 1 0 (fun _ => "$2a$10$x") (some "a@x.com") (some "password123")
      (some "Al") =
      (.registered "User registered successfully" ⟨1, "a@x.com", "Al", 0⟩,
        [⟨1, "a@x.com", "$2a$10$x", "Al", 0⟩]) :=
  (C9_password_hash_isolation [] 1 0 (fun _ => "$2a$10$x") "a@x.com"
    "password123" "Al" (by decide) (by decide) (by decide) rfl (by decide)).1

/-- C10 (amended): the list operation applies no lower clamp to a nonzero
numeric limit — the applied limit is `min n 100`, so a negative value such as
`limit=-5` passes through unchanged — but a zero limit is falsy under
JavaScript `||` and falls back to the default 10 exactly like an absent or
non-numeric limit; and a negative applied limit is handed unchanged to the
store, which rejects a negative `LIMIT`, so the request fails with a 500 and
no `hasMore` is ever computed for it. -/
theorem C10_no_lower_clamp (db : List SessionRow) (uid : Int)
    (op : Option String) :
    (∀ s n, jsParseInt (some s) = some n → n ≠ 0 →
      appliedLimit (some s) = min n 100) ∧
    (∀ s, jsParseInt (some s) = some 0 → appliedLimit (some s) = 10) ∧
    (∀ lp, jsParseInt lp = none → appliedLimit lp = 10) ∧
    (∀ s n, jsParseInt (some s) = some n → n < 0 → 0 ≤ appliedOffset op →
      listSessions db uid (some s) op =
        .serverError "LIMIT must not be negative") := by
  refine ⟨?_, ?_, ?_, ?_⟩
  · intro s n h hn
    simp [appliedLimit, jsOrInt, h, hn]
  · intro s h
    simp [appliedLimit, jsOrInt, h]
  · intro lp h
    simp [appliedLimit, jsOrInt, h]
  · intro s n h hn hoff
    have hlim : appliedLimit (some s) = n := by
      have hnz : ¬ n = 0 := by omega
      have : min n 100 = n := min_eq_left (by omega)
      simp [appliedLimit, jsOrInt, h, hnz, this]
    unfold listSessions sqlSelectSessions
    rw [hlim]
    simp [hn]

/-- Counterexample for C10 as stated: `limit=0` is numeric, yet the applied
limit is the default 10, not `min 0 100 = 0`; and `limit=-5`, rather than
flowing into a `hasMore` computation, makes the store reject the query so the
request fails with a 500. -/
theorem C10_counterexample :
    appliedLimit (some "0") = 10 ∧ (10 : Int) ≠ min 0 100 ∧
    listSessions [] 1 (some "-5") none =
      .serverError "LIMIT must not be negative" := by
  decide

/-- Witness for C10 at concrete parameters: `limit=-5` passes through the
clamp unchanged. -/
theorem C10_witness : appliedLimit (some "-5") = min (-5) 100 :=
  (C10_no_lower_clamp [] 1 none).1 "-5" (-5) rfl (by decide)

end TutoringApi
